import Mathlib

set_option maxRecDepth 8000

/-!
Verification development for the MY_SSD_TF2_MODEL bluetooth-scanner repository.

The repository contains two scanner variants sharing the same pipeline
(identity anonymization, distance estimation, visit ledger, event dispatch):
  * `scan-bluetooth-device.py`  (class `SimpleBluetoothScanner`, prefix `simple_`)
  * `bluetooth_scanner_raspberrypi.py` (class `BluetoothScannerRaspberryPi`, prefix `rpi_`)
  * `bluetooth_scanner.py` (class `BluetoothScanner`, prefix `scanner_`)

The embedding conventions:
  * timestamps are integers counting seconds (Python `datetime` subtraction
    compared against `timedelta(minutes=1)` / `timedelta(minutes=15)` becomes
    integer comparison against 60 / 900 seconds);
  * distances are rationals (the claims never depend on float rounding of the
    stored values); RSSI values are integers;
  * the SQLite row for an identity is a record; `save_to_database` becomes a
    pure state transition on `Option` of that record (the row may be absent);
  * `requests.post` outcomes are abstracted by `DeliveryResult`; the
    `sent_events` dictionary entry for one identity is `Option SentFlags`;
  * a storage failure (the `except` branch of `save_to_database`) is modelled
    by a `db_ok : Bool` flag on the scheduler step: on failure the row is
    unchanged and the function returns `False`, exactly as the Python code's
    `except ...: return False`.
-/

/-! ### Distance bucket (`get_distance_accuracy`, identical in both scanner files) -/

/-- `BluetoothScanner.get_distance_accuracy` from `bluetooth_scanner.py`
(lines 37-48): `distance < 0` gives the unknown label, then thresholds
1, 3, 10 with `<=`. -/
def scanner_get_distance_accuracy (distance : ℚ) : String :=
  if distance < 0 then "Không xác định"
  else if distance ≤ 1 then "Rất gần"
  else if distance ≤ 3 then "Gần"
  else if distance ≤ 10 then "Trung bình"
  else "Xa"

/-- `BluetoothScannerRaspberryPi.get_distance_accuracy` from
`bluetooth_scanner_raspberrypi.py` (lines 118-129); textually the same
threshold chain as the `bluetooth_scanner.py` copy. -/
def rpi_get_distance_accuracy (distance : ℚ) : String :=
  if distance < 0 then "Không xác định"
  else if distance ≤ 1 then "Rất gần"
  else if distance ≤ 3 then "Gần"
  else if distance ≤ 10 then "Trung bình"
  else "Xa"

/-- The amended bucket specification (spec §4.1 amended at the boundary 0):
unknown for `d < 0`, very_close for `0 ≤ d ≤ 1`, close for `1 < d ≤ 3`,
medium for `3 < d ≤ 10`, far for `d > 10`.  The labels are the Vietnamese
strings the code returns: unknown = "Không xác định", very_close = "Rất gần",
close = "Gần", medium = "Trung bình", far = "Xa". -/
def distance_bucket_amended (d : ℚ) : String :=
  if d < 0 then "Không xác định"
  else if 0 ≤ d ∧ d ≤ 1 then "Rất gần"
  else if 1 < d ∧ d ≤ 3 then "Gần"
  else if 3 < d ∧ d ≤ 10 then "Trung bình"
  else "Xa"

/-! ### Device Ledger -/

/-- One row of the `devices` table of `bluetooth_scanner_raspberrypi.py`
(columns used by `save_to_database`; `mac_address` and `avg_distance` are
never read or updated by it and are omitted). `min_distance` is a nullable
column, hence `Option`. -/
structure RpiDeviceRecord where
  device_name : String
  device_type : String
  first_seen : Int
  last_seen : Int
  visit_count : Nat
  total_detections : Nat
  last_rssi : Int
  last_distance : ℚ
  min_distance : Option ℚ
deriving DecidableEq

/-- One row of the `devices` table of `scan-bluetooth-device.py` (no
distance columns). -/
structure SimpleDeviceRecord where
  device_name : String
  device_type : String
  first_seen : Int
  last_seen : Int
  visit_count : Nat
  total_detections : Nat
deriving DecidableEq

/-- `BluetoothScannerRaspberryPi.save_to_database` (lines 221-282), success
path, as a pure transition on the row for the hashed identity.  Return
window: `current_time - last_seen > timedelta(minutes=1)`, i.e. 60 seconds,
strict.  `min_distance` update: `if min_distance is None or
distance < min_distance: min_distance = distance` — note there is no
check that `distance` is a non-sentinel value.  The `UPDATE` statement
rewrites `device_name`, `last_seen`, `visit_count`, `total_detections`,
`last_rssi`, `last_distance`, `min_distance` (not `device_type`). -/
def rpi_save_to_database (existing : Option RpiDeviceRecord)
    (name device_type : String) (rssi : Int) (distance : ℚ) (now : Int) :
    RpiDeviceRecord × Bool :=
  match existing with
  | none =>
    ({ device_name := name, device_type := device_type, first_seen := now,
       last_seen := now, visit_count := 1, total_detections := 1,
       last_rssi := rssi, last_distance := distance,
       min_distance := some distance }, false)
  | some r =>
    let is_returning : Bool := decide (now - r.last_seen > 60)
    let visit_count : Nat :=
      if now - r.last_seen > 60 then r.visit_count + 1 else r.visit_count
    let min_distance : ℚ :=
      match r.min_distance with
      | none => distance
      | some m => if distance < m then distance else m
    ({ r with
        device_name := name
        last_seen := now
        visit_count := visit_count
        total_detections := r.total_detections + 1
        last_rssi := rssi
        last_distance := distance
        min_distance := some min_distance }, is_returning)

/-- `SimpleBluetoothScanner.save_to_database` (lines 255-307), success path.
Return window: `current_time - last_seen > timedelta(minutes=15)`, i.e.
900 seconds, strict. -/
def simple_save_to_database (existing : Option SimpleDeviceRecord)
    (name device_type : String) (now : Int) : SimpleDeviceRecord × Bool :=
  match existing with
  | none =>
    ({ device_name := name, device_type := device_type, first_seen := now,
       last_seen := now, visit_count := 1, total_detections := 1 }, false)
  | some r =>
    let is_returning : Bool := decide (now - r.last_seen > 900)
    let visit_count : Nat :=
      if now - r.last_seen > 900 then r.visit_count + 1 else r.visit_count
    ({ r with
        device_name := name
        last_seen := now
        visit_count := visit_count
        total_detections := r.total_detections + 1 }, is_returning)

/-- The arguments of one `save_to_database` call in the rpi scanner. -/
structure RpiSample where
  name : String
  device_type : String
  rssi : Int
  distance : ℚ
  now : Int

/-- The arguments of one `save_to_database` call in the simple scanner. -/
structure SimpleSample where
  name : String
  device_type : String
  now : Int

/-- One successful ledger call for a fixed identity, rpi variant. -/
def rpi_step (acc : Option RpiDeviceRecord) (s : RpiSample) : Option RpiDeviceRecord :=
  some (rpi_save_to_database acc s.name s.device_type s.rssi s.distance s.now).1

/-- One successful ledger call for a fixed identity, simple variant. -/
def simple_step (acc : Option SimpleDeviceRecord) (s : SimpleSample) : Option SimpleDeviceRecord :=
  some (simple_save_to_database acc s.name s.device_type s.now).1

/-- The per-identity row after a sequence of successful ledger calls
starting from an absent row, rpi variant. -/
def rpi_run (l : List RpiSample) : Option RpiDeviceRecord :=
  l.foldl rpi_step none

/-- The per-identity row after a sequence of successful ledger calls
starting from an absent row, simple variant. -/
def simple_run (l : List SimpleSample) : Option SimpleDeviceRecord :=
  l.foldl simple_step none

/-- The ledger invariant of spec §3 for an rpi row: `visit_count ≥ 1` and
`total_detections ≥ visit_count`. An absent row satisfies it trivially. -/
def rpiRecordInv : Option RpiDeviceRecord → Prop
  | none => True
  | some r => 1 ≤ r.visit_count ∧ r.visit_count ≤ r.total_detections

/-- The ledger invariant of spec §3 for a simple-scanner row. -/
def simpleRecordInv : Option SimpleDeviceRecord → Prop
  | none => True
  | some r => 1 ≤ r.visit_count ∧ r.visit_count ≤ r.total_detections

/-- `visit_count` of a possibly-absent row (0 when absent). -/
def rpiVC : Option RpiDeviceRecord → Nat
  | none => 0
  | some r => r.visit_count

/-- `visit_count` of a possibly-absent row, simple variant (0 when absent). -/
def simpleVC : Option SimpleDeviceRecord → Nat
  | none => 0
  | some r => r.visit_count

/-! ### Event Dispatcher -/

/-- Outcome of one `requests.post` call in the scanner scripts:
HTTP 200, a non-success HTTP status, `requests.exceptions.Timeout`,
`requests.exceptions.ConnectionError`, or any other raised exception. -/
inductive DeliveryResult where
  | ok
  | badStatus
  | timeoutErr
  | connectionErr
  | otherExc
deriving DecidableEq

/-- The `sent_events[mac_hash]` dictionary value:
`{'new_sent': bool, 'return_sent': bool}`. -/
structure SentFlags where
  new_sent : Bool
  return_sent : Bool
deriving DecidableEq

/-- Python `p in s` on character lists (contiguous substring test). -/
def startsWithChars : List Char → List Char → Bool
  | [], _ => true
  | _ :: _, [] => false
  | a :: ps, b :: ss => a == b && startsWithChars ps ss

/-- Python `p in s` on character lists: some suffix of `s` starts with `p`. -/
def containsSub (p : List Char) : List Char → Bool
  | [] => p.isEmpty
  | b :: ss => startsWithChars p (b :: ss) || containsSub p ss

/-- The exclusion test of `BluetoothScannerRaspberryPi.send_scanner_event`
(line 287): `"Holy-IOT" in name or "holy-iot" in name.lower()` (ASCII
lowering, which is all the pattern needs). -/
def isHolyIotName (name : List Char) : Bool :=
  containsSub (("Holy-IOT").toList) name ||
    containsSub (("holy-iot").toList) (name.map Char.toLower)

/-- `BluetoothScannerRaspberryPi.send_scanner_event` (lines 284-356) as a
transition on the `sent_events` entry for the identity, returning the new
entry and whether a network request was attempted.  The code sets the
transition flag `True` before posting and resets it to `False` in the
non-200 branch, the `Timeout` handler and the catch-all `Exception`
handler — so after a failed attempt of any kind the flag is `False`.
When the entry is absent it is created with both flags `False` before the
should-send check, so the entry is present afterwards in every non-excluded
path. -/
def rpi_send_scanner_event (net : DeliveryResult) (name : String)
    (is_returning : Bool) (flags : Option SentFlags) : Option SentFlags × Bool :=
  if isHolyIotName name.toList then (flags, false)
  else
    let f := flags.getD ⟨false, false⟩
    if !is_returning && !f.new_sent then
      match net with
      | .ok => (some { f with new_sent := true }, true)
      | _ => (some { f with new_sent := false }, true)
    else if is_returning && !f.return_sent then
      match net with
      | .ok => (some { f with return_sent := true }, true)
      | _ => (some { f with return_sent := false }, true)
    else (some f, false)

/-- `SimpleBluetoothScanner.send_scanner_event` (lines 169-253).  No
exclusion list.  The flag is set `True` before posting; the exception
handlers (`Timeout`, `ConnectionError`, `RequestException`, `Exception`)
reset it to `False`, but the non-success-status branch (lines 217-224) only
prints the error and does NOT reset the flag, so after a non-200 response
the flag stays `True`. -/
def simple_send_scanner_event (net : DeliveryResult)
    (is_returning : Bool) (flags : Option SentFlags) : Option SentFlags × Bool :=
  let f := flags.getD ⟨false, false⟩
  if !is_returning && !f.new_sent then
    match net with
    | .ok => (some { f with new_sent := true }, true)
    | .badStatus => (some { f with new_sent := true }, true)
    | _ => (some { f with new_sent := false }, true)
  else if is_returning && !f.return_sent then
    match net with
    | .ok => (some { f with return_sent := true }, true)
    | .badStatus => (some { f with return_sent := true }, true)
    | _ => (some { f with return_sent := false }, true)
  else (some f, false)

/-! ### Scheduler step (rpi `scan_classic_bluetooth` per-sample body) -/

/-- The per-identity state the rpi scan loop touches for one sample: the
database row and the `sent_events` entry. -/
structure RpiScanState where
  record : Option RpiDeviceRecord
  flags : Option SentFlags
deriving DecidableEq

/-- The per-sample body of `BluetoothScannerRaspberryPi.scan_classic_bluetooth`
(lines 388-397): `is_returning = save_to_database(...)` followed
unconditionally by `send_scanner_event(..., is_returning, ...)`.
`db_ok = false` models a storage failure: the `except` branch of
`save_to_database` (lines 280-282) leaves the database unchanged and
returns `False`, and the caller proceeds to `send_scanner_event` with
`is_returning = False`.  Returns the new state and whether a network
request was attempted. -/
def rpi_process_sample (db_ok : Bool) (net : DeliveryResult)
    (name device_type : String) (rssi : Int) (distance : ℚ) (now : Int)
    (st : RpiScanState) : RpiScanState × Bool :=
  let saved : Option RpiDeviceRecord × Bool :=
    if db_ok then
      let p := rpi_save_to_database st.record name device_type rssi distance now
      (some p.1, p.2)
    else
      (st.record, false)
  let sent := rpi_send_scanner_event net name saved.2 st.flags
  ({ record := saved.1, flags := sent.1 }, sent.2)

/-! ### Identity Anonymizer (`hash_mac_address`)

Both scanner classes compute `hashlib.sha256((mac + salt).encode()).hexdigest()[:16]`
with different hard-coded salts.  SHA-256 is embedded below over byte lists
(`Nat` values < 256), with 32-bit words as `Nat` reduced modulo `2^32`. -/

/-- 32-bit modular addition. -/
def add32 (a b : Nat) : Nat := (a + b) % 4294967296

/-- 32-bit right rotation. -/
def rotr32 (n x : Nat) : Nat := ((x >>> n) ||| (x <<< (32 - n))) % 4294967296

/-- SHA-256 Σ0. -/
def upperSig0 (x : Nat) : Nat := rotr32 2 x ^^^ rotr32 13 x ^^^ rotr32 22 x

/-- SHA-256 Σ1. -/
def upperSig1 (x : Nat) : Nat := rotr32 6 x ^^^ rotr32 11 x ^^^ rotr32 25 x

/-- SHA-256 σ0. -/
def lowerSig0 (x : Nat) : Nat := rotr32 7 x ^^^ rotr32 18 x ^^^ (x >>> 3)

/-- SHA-256 σ1. -/
def lowerSig1 (x : Nat) : Nat := rotr32 17 x ^^^ rotr32 19 x ^^^ (x >>> 10)

/-- SHA-256 Ch. -/
def ch32 (e f g : Nat) : Nat := (e &&& f) ^^^ ((e ^^^ 4294967295) &&& g)

/-- SHA-256 Maj. -/
def maj32 (a b c : Nat) : Nat := (a &&& b) ^^^ (a &&& c) ^^^ (b &&& c)

/-- SHA-256 padding: append `0x80`, zero bytes to 56 mod 64, then the
64-bit big-endian bit length. -/
def sha256Pad (msg : List Nat) : List Nat :=
  let len := msg.length
  let zeros := (64 - ((len + 9) % 64)) % 64
  msg ++ [128] ++ List.replicate zeros 0 ++
    (List.range 8).map (fun i => ((8 * len) >>> (8 * (7 - i))) % 256)

/-- Big-endian grouping of bytes into 32-bit words. -/
def bytesToWords : List Nat → List Nat
  | a :: b :: c :: d :: rest => (((a * 256 + b) * 256 + c) * 256 + d) :: bytesToWords rest
  | _ => []

/-- The eight SHA-256 working variables. -/
structure Hash8 where
  a : Nat
  b : Nat
  c : Nat
  d : Nat
  e : Nat
  f : Nat
  g : Nat
  h : Nat
deriving DecidableEq

/-- One message-schedule extension step on the reversed schedule
(`r.getD 1 0` is w[t-2], `r.getD 6 0` is w[t-7], `r.getD 14 0` is w[t-15],
`r.getD 15 0` is w[t-16]). -/
def schedStep (r : List Nat) : List Nat :=
  add32 (add32 (lowerSig1 (r.getD 1 0)) (r.getD 6 0))
    (add32 (lowerSig0 (r.getD 14 0)) (r.getD 15 0)) :: r

/-- Iterate the schedule extension. -/
def iterSched : Nat → List Nat → List Nat
  | 0, r => r
  | n + 1, r => iterSched n (schedStep r)

/-- Extend a 16-word block to the 64-word message schedule. -/
def schedule (block : List Nat) : List Nat :=
  (iterSched 48 block.reverse).reverse

/-- The 64 SHA-256 round constants (decimal). -/
def Kconst : List Nat :=
  [1116352408, 1899447441, 3049323471, 3921009573, 961987163,
   1508970993, 2453635748, 2870763221, 3624381080, 310598401,
   607225278, 1426881987, 1925078388, 2162078206, 2614888103,
   3248222580, 3835390401, 4022224774, 264347078, 604807628,
   770255983, 1249150122, 1555081692, 1996064986, 2554220882,
   2821834349, 2952996808, 3210313671, 3336571891, 3584528711,
   113926993, 338241895, 666307205, 773529912, 1294757372,
   1396182291, 1695183700, 1986661051, 2177026350, 2456956037,
   2730485921, 2820302411, 3259730800, 3345764771, 3516065817,
   3600352804, 4094571909, 275423344, 430227734, 506948616,
   659060556, 883997877, 958139571, 1322822218, 1537002063,
   1747873779, 1955562222, 2024104815, 2227730452, 2361852424,
   2428436474, 2756734187, 3204031479, 3329325298]

/-- One SHA-256 compression round; `kw` is the already-added `K[t] + W[t]`. -/
def sha256Round (st : Hash8) (kw : Nat) : Hash8 :=
  let t1 := add32 st.h (add32 (upperSig1 st.e) (add32 (ch32 st.e st.f st.g) kw))
  let t2 := add32 (upperSig0 st.a) (maj32 st.a st.b st.c)
  ⟨add32 t1 t2, st.a, st.b, st.c, add32 st.d t1, st.e, st.f, st.g⟩

/-- SHA-256 compression of one 16-word block. -/
def compress (st : Hash8) (block : List Nat) : Hash8 :=
  let kw := (Kconst.zip (schedule block)).map (fun p => add32 p.1 p.2)
  let t := kw.foldl sha256Round st
  ⟨add32 st.a t.a, add32 st.b t.b, add32 st.c t.c, add32 st.d t.d,
   add32 st.e t.e, add32 st.f t.f, add32 st.g t.g, add32 st.h t.h⟩

/-- Consume the padded message 16 words at a time. -/
def sha256Blocks (st : Hash8) : List Nat → Hash8
  | w0 :: w1 :: w2 :: w3 :: w4 :: w5 :: w6 :: w7 ::
    w8 :: w9 :: w10 :: w11 :: w12 :: w13 :: w14 :: w15 :: rest =>
      sha256Blocks (compress st [w0, w1, w2, w3, w4, w5, w6, w7,
                                 w8, w9, w10, w11, w12, w13, w14, w15]) rest
  | _ => st

/-- The SHA-256 initial hash value (decimal). -/
def sha256Init : Hash8 :=
  ⟨1779033703, 3144134277, 1013904242, 2773480762,
   1359893119, 2600822924, 528734635, 1541459225⟩

/-- SHA-256 digest of a byte list, as eight 32-bit words. -/
def sha256Words (msg : List Nat) : List Nat :=
  let st := sha256Blocks sha256Init (bytesToWords (sha256Pad msg))
  [st.a, st.b, st.c, st.d, st.e, st.f, st.g, st.h]

/-- Lower-case hex digit. -/
def hexChar (n : Nat) : Char :=
  if n < 10 then Char.ofNat (48 + n) else Char.ofNat (87 + n)

/-- Eight hex characters of a 32-bit word, most significant first. -/
def wordHex (w : Nat) : List Char :=
  (List.range 8).map (fun i => hexChar ((w >>> (4 * (7 - i))) % 16))

/-- `hashlib.sha256(...).hexdigest()`. -/
def sha256Hex (msg : List Nat) : String :=
  String.mk (((sha256Words msg).map wordHex).flatten)

/-- UTF-8 bytes of the ASCII strings used here (`str.encode()`). -/
def strBytes (s : String) : List Nat := s.toList.map Char.toNat

/-- `SimpleBluetoothScanner.hash_mac_address` from `scan-bluetooth-device.py`
(lines 162-167): salt `"bluetooth_scanner_2024"`, first 16 hex characters. -/
def simple_hash_mac_address (mac : String) : String :=
  (sha256Hex (strBytes (mac ++ "bluetooth_scanner_2024"))).take 16

/-- `BluetoothScannerRaspberryPi.hash_mac_address` from
`bluetooth_scanner_raspberrypi.py` (lines 79-83): salt
`"rpi_bluetooth_scanner_2024"`, first 16 hex characters. -/
def rpi_hash_mac_address (mac : String) : String :=
  (sha256Hex (strBytes (mac ++ "rpi_bluetooth_scanner_2024"))).take 16

/-! ### Distance Estimator (`calculate_distance`)

The estimator is real-valued: Python's `math.pow(10, x)` becomes `Real.rpow`
and `round(x, 2)` becomes `round2` below (floats are modelled by exact
reals; Python's round-half-to-even and this `round`'s half-up differ only
at exact ties, which none of the values in this development hit).
`MEASURED_POWER` and `PATH_LOSS_EXPONENT` are instance attributes set from
command-line arguments, so they are parameters here. -/

/-- Python `round(x, 2)`: round `x * 100` to the nearest integer and divide
by 100. -/
noncomputable def round2 (x : ℝ) : ℝ := ((round (x * 100) : ℤ) : ℝ) / 100

/-- `BluetoothScannerRaspberryPi.calculate_distance` (lines 107-116):
returns the integer `-1` when `rssi == 0`, otherwise
`round(10 ** ((MEASURED_POWER - rssi) / (10 * PATH_LOSS_EXPONENT)), 2)`. -/
noncomputable def rpi_calculate_distance (MEASURED_POWER : ℤ)
    (PATH_LOSS_EXPONENT : ℝ) (rssi : ℤ) : ℝ :=
  if rssi = 0 then -1
  else round2 ((10 : ℝ) ^ (((MEASURED_POWER : ℝ) - (rssi : ℝ)) / (10 * PATH_LOSS_EXPONENT)))

/-- `BluetoothScanner.calculate_distance` from `bluetooth_scanner.py`
(lines 23-35): returns the float `-1.0` when `rssi == 0` (the same real
number as the rpi variant's `-1`), otherwise the same formula; the
`measured_power` argument defaults to the instance constant. -/
noncomputable def scanner_calculate_distance (measured_power : ℤ)
    (PATH_LOSS_EXPONENT : ℝ) (rssi : ℤ) : ℝ :=
  if rssi = 0 then -1
  else round2 ((10 : ℝ) ^ (((measured_power : ℝ) - (rssi : ℝ)) / (10 * PATH_LOSS_EXPONENT)))

/-- Spec §4.1, written from the spec's words: `rssi == 0` returns the
sentinel `-1.0`; otherwise
`distance = 10 ^ ((measured_power - rssi) / (10 * path_loss_exponent))`,
rounded to 2 decimal digits. -/
noncomputable def estimate_distance_spec (measured_power : ℤ)
    (path_loss_exponent : ℝ) (rssi : ℤ) : ℝ :=
  if rssi = 0 then -1
  else round2 ((10 : ℝ) ^ (((measured_power : ℝ) - (rssi : ℝ)) / (10 * path_loss_exponent)))

/-! ### Helper lemmas -/

/-- Any power `10 ^ e` with `e ≤ -3` rounds to 0 at 2 decimal digits. -/
lemma round2_rpow_eq_zero {e : ℝ} (he : e ≤ -3) : round2 ((10 : ℝ) ^ e) = 0 := by
  have h10 : (1 : ℝ) < 10 := by norm_num
  have hpos : 0 < (10 : ℝ) ^ e := Real.rpow_pos_of_pos (by norm_num) e
  have hle : (10 : ℝ) ^ e ≤ (10 : ℝ) ^ (-3 : ℝ) := (Real.rpow_le_rpow_left_iff h10).mpr he
  have h3 : (10 : ℝ) ^ (-3 : ℝ) = 1 / 1000 := by
    rw [show (-3 : ℝ) = ((-3 : ℤ) : ℝ) by norm_num, Real.rpow_intCast]
    norm_num
  rw [h3] at hle
  have hr : round ((10 : ℝ) ^ e * 100) = 0 := by
    rw [round_eq_zero_iff]
    constructor
    · nlinarith
    · nlinarith
  rw [round2, hr]
  norm_num

/-- Rounding to 2 decimal digits is monotone. -/
lemma round2_mono {x y : ℝ} (h : x ≤ y) : round2 x ≤ round2 y := by
  rw [round2, round2]
  have h2 : round (x * 100) ≤ round (y * 100) := by
    rw [round_eq, round_eq]
    exact Int.floor_mono (by linarith)
  have h3 : ((round (x * 100) : ℤ) : ℝ) ≤ ((round (y * 100) : ℤ) : ℝ) := by exact_mod_cast h2
  linarith

/-- The ledger step preserves the row invariant, rpi variant. -/
lemma rpi_step_inv (acc : Option RpiDeviceRecord) (s : RpiSample)
    (h : rpiRecordInv acc) : rpiRecordInv (rpi_step acc s) := by
  cases acc with
  | none =>
      simp [rpi_step, rpi_save_to_database, rpiRecordInv]
  | some r =>
      obtain ⟨h1, h2⟩ := h
      simp only [rpi_step, rpi_save_to_database, rpiRecordInv]
      split_ifs <;> constructor <;> omega

/-- The row invariant holds along any run, rpi variant. -/
lemma rpi_run_inv_aux (l : List RpiSample) (acc : Option RpiDeviceRecord)
    (h : rpiRecordInv acc) : rpiRecordInv (l.foldl rpi_step acc) := by
  induction l generalizing acc with
  | nil => exact h
  | cons s rest ih => exact ih _ (rpi_step_inv acc s h)

/-- The ledger step preserves the row invariant, simple variant. -/
lemma simple_step_inv (acc : Option SimpleDeviceRecord) (s : SimpleSample)
    (h : simpleRecordInv acc) : simpleRecordInv (simple_step acc s) := by
  cases acc with
  | none =>
      simp [simple_step, simple_save_to_database, simpleRecordInv]
  | some r =>
      obtain ⟨h1, h2⟩ := h
      simp only [simple_step, simple_save_to_database, simpleRecordInv]
      split_ifs <;> constructor <;> omega

/-- The row invariant holds along any run, simple variant. -/
lemma simple_run_inv_aux (l : List SimpleSample) (acc : Option SimpleDeviceRecord)
    (h : simpleRecordInv acc) : simpleRecordInv (l.foldl simple_step acc) := by
  induction l generalizing acc with
  | nil => exact h
  | cons s rest ih => exact ih _ (simple_step_inv acc s h)

/-! ### Claim theorems -/

/-- Claim C3 (confirmed): for an existing record, a successful ledger call at
time `now` returns `is_returning = true` and increments `visit_count` by
exactly 1 exactly when `now - last_seen` exceeds the configured return window
(60 s in the rpi variant, 900 s in the simple variant); otherwise it returns
`is_returning = false` and leaves `visit_count` unchanged.  In both cases
`total_detections` is incremented by 1 and `last_seen` is set to `now`. -/
theorem claim_C3 :
    (∀ (r : RpiDeviceRecord) name dt rssi dist now,
      ((rpi_save_to_database (some r) name dt rssi dist now).2 = true ∧
        (rpi_save_to_database (some r) name dt rssi dist now).1.visit_count =
          r.visit_count + 1 ↔ now - r.last_seen > 60) ∧
      ((rpi_save_to_database (some r) name dt rssi dist now).2 = false ∧
        (rpi_save_to_database (some r) name dt rssi dist now).1.visit_count =
          r.visit_count ↔ ¬ (now - r.last_seen > 60)) ∧
      (rpi_save_to_database (some r) name dt rssi dist now).1.total_detections =
        r.total_detections + 1 ∧
      (rpi_save_to_database (some r) name dt rssi dist now).1.last_seen = now) ∧
    (∀ (r : SimpleDeviceRecord) name dt now,
      ((simple_save_to_database (some r) name dt now).2 = true ∧
        (simple_save_to_database (some r) name dt now).1.visit_count =
          r.visit_count + 1 ↔ now - r.last_seen > 900) ∧
      ((simple_save_to_database (some r) name dt now).2 = false ∧
        (simple_save_to_database (some r) name dt now).1.visit_count =
          r.visit_count ↔ ¬ (now - r.last_seen > 900)) ∧
      (simple_save_to_database (some r) name dt now).1.total_detections =
        r.total_detections + 1 ∧
      (simple_save_to_database (some r) name dt now).1.last_seen = now) := by
  constructor
  · intro r name dt rssi dist now
    simp only [rpi_save_to_database]
    split_ifs with h <;> simp [h, decide_eq_true_eq]
  · intro r name dt now
    simp only [simple_save_to_database]
    split_ifs with h <;> simp [h, decide_eq_true_eq]

/-- Claim C5 (confirmed): in both variants a fresh record starts with
`visit_count = 1` and `total_detections = 1`; every update adds exactly 1 to
`total_detections` and at most 1 to `visit_count` (so `visit_count` never
decreases across calls); and along any run of successful ledger calls the
invariant `1 ≤ visit_count ≤ total_detections` holds. -/
theorem claim_C5 :
    (∀ name dt rssi dist now,
      (rpi_save_to_database none name dt rssi dist now).1.visit_count = 1 ∧
      (rpi_save_to_database none name dt rssi dist now).1.total_detections = 1) ∧
    (∀ (r : RpiDeviceRecord) name dt rssi dist now,
      r.visit_count ≤ (rpi_save_to_database (some r) name dt rssi dist now).1.visit_count ∧
      (rpi_save_to_database (some r) name dt rssi dist now).1.visit_count ≤ r.visit_count + 1 ∧
      (rpi_save_to_database (some r) name dt rssi dist now).1.total_detections =
        r.total_detections + 1) ∧
    (∀ l : List RpiSample, rpiRecordInv (rpi_run l)) ∧
    (∀ name dt now,
      (simple_save_to_database none name dt now).1.visit_count = 1 ∧
      (simple_save_to_database none name dt now).1.total_detections = 1) ∧
    (∀ (r : SimpleDeviceRecord) name dt now,
      r.visit_count ≤ (simple_save_to_database (some r) name dt now).1.visit_count ∧
      (simple_save_to_database (some r) name dt now).1.visit_count ≤ r.visit_count + 1 ∧
      (simple_save_to_database (some r) name dt now).1.total_detections =
        r.total_detections + 1) ∧
    (∀ l : List SimpleSample, simpleRecordInv (simple_run l)) := by
  refine ⟨?_, ?_, ?_, ?_, ?_, ?_⟩
  · intro name dt rssi dist now
    simp [rpi_save_to_database]
  · intro r name dt rssi dist now
    simp only [rpi_save_to_database]
    split_ifs <;> refine ⟨?_, ?_, ?_⟩ <;> first | omega | trivial
  · intro l
    exact rpi_run_inv_aux l none trivial
  · intro name dt now
    simp [simple_save_to_database]
  · intro r name dt now
    simp only [simple_save_to_database]
    split_ifs <;> refine ⟨?_, ?_, ?_⟩ <;> first | omega | trivial
  · intro l
    exact simple_run_inv_aux l none trivial

/-- Claim C6 (confirmed): both `calculate_distance` variants agree with the
spec's estimator: `rssi == 0` returns the sentinel `-1.0` without attempting
the computation, and otherwise the result is
`10 ^ ((measured_power - rssi) / (10 * path_loss_exponent))` rounded to
2 decimal digits. -/
theorem claim_C6 (mp : ℤ) (ple : ℝ) (rssi : ℤ) :
    scanner_calculate_distance mp ple rssi = estimate_distance_spec mp ple rssi ∧
    rpi_calculate_distance mp ple rssi = estimate_distance_spec mp ple rssi ∧
    estimate_distance_spec mp ple rssi =
      (if rssi = 0 then -1
       else round2 ((10 : ℝ) ^ (((mp : ℝ) - (rssi : ℝ)) / (10 * ple)))) :=
  ⟨rfl, rfl, rfl⟩

/-- Claim C7 counterexample: with `measured_power = -59` and
`path_loss_exponent = 2.0`, the nonzero RSSI values 41 < 61 both yield the
rounded distance 0.00, so the estimate after rounding is NOT strictly
decreasing in RSSI as the claim states. -/
theorem claim_C7_counterexample :
    (41 : ℤ) < 61 ∧ (41 : ℤ) ≠ 0 ∧ (61 : ℤ) ≠ 0 ∧
    ¬ (rpi_calculate_distance (-59) 2 41 > rpi_calculate_distance (-59) 2 61) := by
  refine ⟨by decide, by decide, by decide, ?_⟩
  have e1 : rpi_calculate_distance (-59) 2 41 = 0 := by
    rw [rpi_calculate_distance, if_neg (by decide)]
    rw [show (((-59 : ℤ) : ℝ) - ((41 : ℤ) : ℝ)) / (10 * 2) = (-5 : ℝ) by push_cast; norm_num]
    exact round2_rpow_eq_zero (by norm_num)
  have e2 : rpi_calculate_distance (-59) 2 61 = 0 := by
    rw [rpi_calculate_distance, if_neg (by decide)]
    rw [show (((-59 : ℤ) : ℝ) - ((61 : ℤ) : ℝ)) / (10 * 2) = (-6 : ℝ) by push_cast; norm_num]
    exact round2_rpow_eq_zero (by norm_num)
  rw [e1, e2]
  exact lt_irrefl 0

/-- Claim C7 (corrected): holding `measured_power` and a positive
`path_loss_exponent` fixed, for nonzero `rssi1 < rssi2` the unrounded
estimate `10 ^ ((mp - rssi) / (10 * ple))` is strictly decreasing in RSSI,
and the returned (2-decimal-rounded) estimate is weakly decreasing
(`estimate(rssi1) ≥ estimate(rssi2)`); strictness after rounding fails
(see the counterexample). -/
theorem claim_C7_amended (mp : ℤ) (ple : ℝ) (r1 r2 : ℤ) (hple : 0 < ple)
    (h1 : r1 ≠ 0) (h2 : r2 ≠ 0) (hlt : r1 < r2) :
    (10 : ℝ) ^ (((mp : ℝ) - (r1 : ℝ)) / (10 * ple)) >
      (10 : ℝ) ^ (((mp : ℝ) - (r2 : ℝ)) / (10 * ple)) ∧
    rpi_calculate_distance mp ple r1 ≥ rpi_calculate_distance mp ple r2 ∧
    scanner_calculate_distance mp ple r1 ≥ scanner_calculate_distance mp ple r2 := by
  have hlt2 : ((r1 : ℝ)) < (r2 : ℝ) := by exact_mod_cast hlt
  have hden : (0 : ℝ) < 10 * ple := by linarith
  have hexp : ((mp : ℝ) - (r2 : ℝ)) / (10 * ple) < ((mp : ℝ) - (r1 : ℝ)) / (10 * ple) := by
    apply div_lt_div_of_pos_right ?_ hden
    linarith
  have hpow : (10 : ℝ) ^ (((mp : ℝ) - (r2 : ℝ)) / (10 * ple)) <
      (10 : ℝ) ^ (((mp : ℝ) - (r1 : ℝ)) / (10 * ple)) :=
    (Real.rpow_lt_rpow_left_iff (by norm_num)).mpr hexp
  refine ⟨hpow, ?_, ?_⟩
  · rw [rpi_calculate_distance, rpi_calculate_distance, if_neg h1, if_neg h2]
    exact round2_mono hpow.le
  · rw [scanner_calculate_distance, scanner_calculate_distance, if_neg h1, if_neg h2]
    exact round2_mono hpow.le

/-- Claim C7 witness: the amended theorem applied at
`mp = -59, ple = 2, rssi1 = -61, rssi2 = -57`. -/
theorem claim_C7_amended_witness :
    (0 : ℝ) < 2 ∧ (-61 : ℤ) ≠ 0 ∧ (-57 : ℤ) ≠ 0 ∧ (-61 : ℤ) < -57 ∧
    rpi_calculate_distance (-59) 2 (-61) ≥ rpi_calculate_distance (-59) 2 (-57) :=
  ⟨two_pos, by decide, by decide, by decide,
    (claim_C7_amended (-59) 2 (-61) (-57) two_pos (by decide) (by decide) (by decide)).2.1⟩

/-- Claim C8 counterexample: `distance_bucket(0)` is "Rất gần" (very_close)
in both variants, not "Không xác định" (unknown) as the claim states, because
the code tests `distance < 0`, not `distance <= 0`. -/
theorem claim_C8_counterexample :
    rpi_get_distance_accuracy 0 = "Rất gần" ∧
    scanner_get_distance_accuracy 0 = "Rất gần" ∧
    "Rất gần" ≠ "Không xác định" := by
  refine ⟨?_, ?_, by decide⟩ <;> rfl

/-- Claim C8 (corrected): both variants return unknown for `d < 0`,
very_close for `0 ≤ d ≤ 1`, close for `1 < d ≤ 3`, medium for `3 < d ≤ 10`
and far for `d > 10`; in particular `distance_bucket(0)` is very_close, not
unknown. -/
theorem claim_C8_amended (d : ℚ) :
    rpi_get_distance_accuracy d = distance_bucket_amended d ∧
    scanner_get_distance_accuracy d = distance_bucket_amended d := by
  constructor <;>
  · simp only [rpi_get_distance_accuracy, scanner_get_distance_accuracy, distance_bucket_amended]
    by_cases h0 : d < 0
    · simp [h0]
    · have h0a : 0 ≤ d := le_of_not_lt h0
      by_cases h1 : d ≤ 1
      · simp [h0, h0a, h1]
      · by_cases h3 : d ≤ 3
        · simp [h0, h1, h3, not_le.mp h1]
        · by_cases h10 : d ≤ 10
          · simp [h0, h1, h3, h10, not_le.mp h3]
          · simp [h0, h1, h3, h10]

/-- Claim C9 counterexample: the sentinel distance `-1` (produced by
`calculate_distance` at `rssi = 0`) DOES lower the stored `min_distance`:
updating a record whose `min_distance` is 2 with a sample of distance `-1`
stores `min_distance = -1`. -/
theorem claim_C9_counterexample :
    rpi_calculate_distance (-59) 2 0 = -1 ∧
    (rpi_save_to_database
        (some ⟨"d", "t", 0, 50, 1, 1, -70, 2, some 2⟩) "d" "t" (-70) (-1) 100).1.min_distance =
      some (-1) := by
  constructor
  · rw [rpi_calculate_distance, if_pos rfl]
  · decide

/-- Claim C9 (corrected): when updating an existing record the rpi ledger
sets `min_distance` to `min(existing, distance)` unconditionally — for every
sample, with no sentinel filtering — and to `distance` when the stored
`min_distance` is NULL; in particular a sentinel (negative) distance does
lower the stored minimum. -/
theorem claim_C9_amended (r : RpiDeviceRecord) (name dt : String) (rssi : Int)
    (dist : ℚ) (now : Int) :
    (rpi_save_to_database (some r) name dt rssi dist now).1.min_distance =
      some (match r.min_distance with | none => dist | some m => min m dist) := by
  cases hm : r.min_distance with
  | none => simp [rpi_save_to_database, hm]
  | some m =>
      simp only [rpi_save_to_database, hm]
      rcases lt_or_le dist m with h | h
      · simp [h, min_def, le_of_lt h]
      · simp [min_def, h, not_lt.mpr h]

/-- Claim C4 (confirmed): in both variants, two successive dispatcher calls
for the same identity with the new-device transition
(`is_returning = false`), where the first delivery succeeds, make exactly
one network attempt: the first call attempts and sets the flag, the second
call attempts nothing and leaves the state unchanged (whatever the network
would have done on the second call). -/
theorem claim_C4 (name : String) (net2 : DeliveryResult)
    (hname : isHolyIotName name.toList = false) :
    (rpi_send_scanner_event .ok name false none).2 = true ∧
    (rpi_send_scanner_event net2 name false (rpi_send_scanner_event .ok name false none).1).2 =
      false ∧
    (rpi_send_scanner_event net2 name false (rpi_send_scanner_event .ok name false none).1).1 =
      (rpi_send_scanner_event .ok name false none).1 ∧
    (simple_send_scanner_event .ok false none).2 = true ∧
    (simple_send_scanner_event net2 false (simple_send_scanner_event .ok false none).1).2 =
      false ∧
    (simple_send_scanner_event net2 false (simple_send_scanner_event .ok false none).1).1 =
      (simple_send_scanner_event .ok false none).1 := by
  simp only [String.toList] at hname
  simp [rpi_send_scanner_event, simple_send_scanner_event, String.toList, hname]

/-- Claim C4 witness: the dedup theorem applied at name "iPhone" with a
failing network on the (suppressed) second call. -/
theorem claim_C4_witness :
    isHolyIotName (("iPhone").toList) = false ∧
    ((rpi_send_scanner_event .ok ("iPhone") false none).2 = true ∧
      (rpi_send_scanner_event .badStatus ("iPhone") false
          (rpi_send_scanner_event .ok ("iPhone") false none).1).2 = false ∧
      (rpi_send_scanner_event .badStatus ("iPhone") false
          (rpi_send_scanner_event .ok ("iPhone") false none).1).1 =
        (rpi_send_scanner_event .ok ("iPhone") false none).1 ∧
      (simple_send_scanner_event .ok false none).2 = true ∧
      (simple_send_scanner_event .badStatus false (simple_send_scanner_event .ok false none).1).2 =
        false ∧
      (simple_send_scanner_event .badStatus false (simple_send_scanner_event .ok false none).1).1 =
        (simple_send_scanner_event .ok false none).1) :=
  ⟨by decide, claim_C4 ("iPhone") .badStatus (by decide)⟩

/-- Claim C2 counterexample: in the simple scanner
(`scan-bluetooth-device.py`), a delivery attempt that fails with a
non-success HTTP status leaves `new_sent = true` — the flag is NOT reset,
contradicting the claim that every failure leaves the flag false. -/
theorem claim_C2_counterexample :
    (simple_send_scanner_event .badStatus false none).2 = true ∧
    (simple_send_scanner_event .badStatus false none).1 =
      some { new_sent := true, return_sent := false } := by
  decide

/-- Claim C2 (corrected): after a failed delivery attempt the flag for the
attempted transition is false in the rpi variant for every failure kind
(non-success status, timeout, connection error, other exception); in the
simple variant this holds for every failure kind EXCEPT a non-success HTTP
status, after which the flag remains true (no retry on a later sample). -/
theorem claim_C2_amended (f : Option SentFlags) (ret : Bool) (name : String)
    (net : DeliveryResult) (hnet : net ≠ DeliveryResult.ok) :
    ((rpi_send_scanner_event net name ret f).2 = true →
      (if ret then ((rpi_send_scanner_event net name ret f).1.getD ⟨false, false⟩).return_sent
       else ((rpi_send_scanner_event net name ret f).1.getD ⟨false, false⟩).new_sent) = false) ∧
    (net ≠ DeliveryResult.badStatus → (simple_send_scanner_event net ret f).2 = true →
      (if ret then ((simple_send_scanner_event net ret f).1.getD ⟨false, false⟩).return_sent
       else ((simple_send_scanner_event net ret f).1.getD ⟨false, false⟩).new_sent) = false) ∧
    (net = DeliveryResult.badStatus → (simple_send_scanner_event net ret f).2 = true →
      (if ret then ((simple_send_scanner_event net ret f).1.getD ⟨false, false⟩).return_sent
       else ((simple_send_scanner_event net ret f).1.getD ⟨false, false⟩).new_sent) = true) := by
  refine ⟨?_, ?_, ?_⟩
  · by_cases hh : isHolyIotName name.data
    · simp [rpi_send_scanner_event, String.toList, hh]
    · rcases f with _ | ⟨ns, rs⟩
      · cases ret <;> cases net <;> simp_all [rpi_send_scanner_event, String.toList]
      · cases ns <;> cases rs <;> cases ret <;> cases net <;>
          simp_all [rpi_send_scanner_event, String.toList]
  · rcases f with _ | ⟨ns, rs⟩
    · cases ret <;> cases net <;> simp_all [simple_send_scanner_event]
    · cases ns <;> cases rs <;> cases ret <;> cases net <;>
        simp_all [simple_send_scanner_event]
  · rcases f with _ | ⟨ns, rs⟩
    · cases ret <;> cases net <;> simp_all [simple_send_scanner_event]
    · cases ns <;> cases rs <;> cases ret <;> cases net <;>
        simp_all [simple_send_scanner_event]

/-- Claim C2 witness: the amended theorem applied at a timeout failure of a
new-device attempt from a fresh entry, in both variants. -/
theorem claim_C2_amended_witness :
    DeliveryResult.timeoutErr ≠ DeliveryResult.ok ∧
    ((rpi_send_scanner_event .timeoutErr ("iPhone") false none).1.getD
        ⟨false, false⟩).new_sent = false ∧
    ((simple_send_scanner_event .timeoutErr false none).1.getD ⟨false, false⟩).new_sent = false := by
  have h := claim_C2_amended none false ("iPhone") .timeoutErr (by decide)
  refine ⟨by decide, ?_, ?_⟩
  · have h1 := h.1 (by decide)
    simpa using h1
  · have h2 := h.2.1 (by decide) (by decide)
    simpa using h2

/-- Claim C1 counterexample: on a storage failure (`db_ok = false`) for a
fresh, non-excluded identity, the rpi scan loop still makes a network
attempt (`send_scanner_event` is called with `is_returning = False` and
posts a new_device event), contradicting the claim that no notification is
attempted for a sample that failed to persist.  The visit state itself is
indeed unchanged. -/
theorem claim_C1_counterexample :
    (rpi_process_sample false .ok ("iPhone") ("phone") (-70) 2 100 ⟨none, none⟩).2 = true ∧
    (rpi_process_sample false .ok ("iPhone") ("phone") (-70) 2 100 ⟨none, none⟩).1.record =
      none := by
  decide

/-- Claim C1 (corrected): when the ledger call fails, the stored row
(`visit_count` / `total_detections`) is unchanged, but the caller still
invokes the dispatcher with `is_returning = false`; a network attempt is
made exactly when the name is not on the exclusion list and the
`new_sent` flag for the identity is not already set. -/
theorem claim_C1_amended (net : DeliveryResult) (name dt : String) (rssi : Int)
    (dist : ℚ) (now : Int) (st : RpiScanState) :
    (rpi_process_sample false net name dt rssi dist now st).1.record = st.record ∧
    ((rpi_process_sample false net name dt rssi dist now st).2 = true ↔
      isHolyIotName name.toList = false ∧
      (st.flags.getD ⟨false, false⟩).new_sent = false) := by
  refine ⟨rfl, ?_⟩
  by_cases hh : isHolyIotName name.data
  · simp [rpi_process_sample, rpi_send_scanner_event, String.toList, hh]
  · rcases hf : (st.flags.getD ⟨false, false⟩).new_sent with _ | _ <;>
      cases net <;>
      simp [rpi_process_sample, rpi_send_scanner_event, String.toList, hh, hf]

/-- Claim C10 (confirmed): the two variants anonymize with different
hard-coded salts, so their `hash_mac_address` functions are not
extensionally equal: there is a raw identifier on which they produce
different 16-character identities. -/
theorem claim_C10 :
    ∃ mac : String, simple_hash_mac_address mac ≠ rpi_hash_mac_address mac ∧
      (simple_hash_mac_address mac).length = 16 ∧ (rpi_hash_mac_address mac).length = 16 :=
  ⟨"AA:BB:CC:DD:EE:FF", by decide, by decide, by decide⟩

/-- Cross-check of the embedded SHA-256 against the published NIST test
vector for the message "abc". -/
theorem sha256_nist_vector :
    sha256Hex (strBytes ("abc")) =
      "ba7816bf8f01cfea414140de5dae2223b00361a396177a9cb410ff61f20015ad" := by
  decide

/-- Cross-check of both anonymizers against reference digests computed with
Python's hashlib on the same inputs. -/
theorem hash_mac_address_reference_values :
    simple_hash_mac_address ("AA:BB:CC:DD:EE:FF") = "a71cdb85038c16d1" ∧
    rpi_hash_mac_address ("AA:BB:CC:DD:EE:FF") = "755195209e691444" := by
  decide
